import Mathlib

/-!
Shallow embedding of the anibridge-jellyfin-provider repository
(`client.py`, `library.py`, `webhook.py`) and proofs about the claims
made by its natural-language specification.

Conventions of the embedding:
* Python values that may be `None` are `Option` values.
* Python truthiness is made explicit: a string is truthy iff non-empty,
  an int iff non-zero, an optional iff `some` of a truthy value.
* Python `dict`s are embedded either as association lists (when only
  iteration order matters) or as functions `String → Option String`
  updated by assignment (when overwrite semantics matter).
* Calls into the vendor SDK / network are abstracted as function
  parameters (e.g. the list of items an API call returned, or a
  `String → Except Unit _` lookup that can raise).
* `str.strip()` is embedded as `pyStrip`, `str.lower()` as `pyLower`
  (character-wise versions of `String.trim` / `String.toLower` that the
  kernel can evaluate).
-/

namespace AniBridgeJellyfin

/-! ### Jellyfin SDK data model (the slice the provider reads) -/

/-- The subset of `BaseItemKind` values the provider code inspects. -/
inductive BaseItemKind where
  | movie
  | series
  | season
  | episode
  | collectionFolder
  | other
  deriving DecidableEq, Repr

/-- The subset of `CollectionType` values the provider code inspects. -/
inductive CollectionType where
  | movies
  | tvshows
  | otherCollection
  deriving DecidableEq, Repr

/-- The subset of `CollectionTypeOptions` values used by virtual folders. -/
inductive CollectionTypeOptions where
  | movies
  | tvshows
  | otherOptions
  deriving DecidableEq, Repr

/-- `UserItemDataDto`: per-user playback state attached to an item. -/
structure UserItemDataDto where
  played : Option Bool := none
  playCount : Option Int := none
  playbackPositionTicks : Option Int := none
  isFavorite : Option Bool := none
  deriving DecidableEq, Repr

/-- `BaseItemDto`: the fields of a Jellyfin item the provider reads.
Item ids are embedded as strings (the code compares them as opaque keys). -/
structure BaseItemDto where
  id : Option String := none
  type : Option BaseItemKind := none
  collectionType : Option CollectionType := none
  userData : Option UserItemDataDto := none
  genres : Option (List String) := none
  providerIds : List (String × Option String) := []
  seriesId : Option String := none
  deriving DecidableEq, Repr

/-- `TypeOptions` of a virtual folder's library options. -/
structure TypeOptions where
  type : Option BaseItemKind := none
  metadataFetcherOrder : Option (List String) := none
  metadataFetchers : Option (List String) := none
  deriving DecidableEq, Repr

/-- `LibraryOptions` of a virtual folder. -/
structure LibraryOptions where
  typeOptions : Option (List TypeOptions) := none
  deriving DecidableEq, Repr

/-- `VirtualFolderInfo` returned by `get_virtual_folders`.  The code
canonicalises `item_id` through `UUID`; the embedding treats the id as an
already-canonical string (the canonicalisation is the identity on such ids). -/
structure VirtualFolderInfo where
  itemId : Option String := none
  collectionType : Option CollectionTypeOptions := none
  libraryOptions : Option LibraryOptions := none
  deriving DecidableEq, Repr

/-! ### Python string and truthiness helpers -/

/-- Python `str.lower()`, embedded character-wise so that it evaluates in the
kernel (`String.toLower` is the same map over the character list). -/
def pyLower (s : String) : String := ⟨s.data.map Char.toLower⟩

/-- Python `str.strip()`: drop whitespace from both ends. -/
def pyStrip (s : String) : String :=
  ⟨((s.data.dropWhile Char.isWhitespace).reverse.dropWhile Char.isWhitespace).reverse⟩

/-- Lowercasing an empty string gives an empty string and conversely. -/
theorem pyLower_eq_empty_iff (s : String) : pyLower s = "" ↔ s = "" := by
  cases s with
  | mk d =>
    unfold pyLower
    constructor
    · intro h
      have h3 := String.ext_iff.mp h
      simp at h3
      exact String.ext_iff.mpr (by simpa using h3)
    · intro h
      have : d = [] := by simpa using String.ext_iff.mp h
      subst this
      rfl

/-- Python `value or default` for an optional string (`None` and `""` are falsy). -/
def pyOrStr (v : Option String) (d : String) : String :=
  match v with
  | some s => if s = "" then d else s
  | none => d

/-- Python `bool(value or default)` for an optional bool (`None` and `False` falsy). -/
def pyOrBool (v : Option Bool) (d : Bool) : Bool :=
  match v with
  | some b => if b then b else d
  | none => d

/-! ### `library.py`: provider construction (`JellyfinLibraryProvider.__init__`) -/

/-- The configuration dictionary handed to the provider constructor
(the slice of keys the constructor reads). -/
structure ProviderConfig where
  url : Option String := none
  token : Option String := none
  user : Option String := none
  sections : Option (List String) := none
  genres : Option (List String) := none
  strict : Option Bool := none
  deriving DecidableEq, Repr

/-- The provider state produced by a successful constructor run. -/
structure ProviderState where
  clientUrl : String
  clientToken : String
  clientUser : String
  sectionFilter : List String
  genreFilter : List String
  strict : Bool
  deriving DecidableEq, Repr

/-- `JellyfinLibraryProvider.__init__`.  Raising `ValueError` is embedded as
`Except.error`.  The constructor performs only local assignments (including
`_create_client`, which is field assignment in `JellyfinClient.__init__`);
it issues no network call, so it is embedded as a pure function. -/
def providerInit (config : Option ProviderConfig) : Except String ProviderState :=
  if pyOrStr (config.getD {}).url "" = ""
      || pyOrStr (config.getD {}).token "" = ""
      || pyOrStr (config.getD {}).user "" = "" then
    .error "The Jellyfin provider requires url, token, and user configuration values"
  else
    .ok
      { clientUrl := pyOrStr (config.getD {}).url ""
        clientToken := pyOrStr (config.getD {}).token ""
        clientUser := pyOrStr (config.getD {}).user ""
        sectionFilter := (config.getD {}).sections.getD []
        genreFilter := (config.getD {}).genres.getD []
        strict := pyOrBool (config.getD {}).strict true }

/-! ### `client.py`: watch-state predicates and item listing -/

/-- `JellyfinClient._has_user_activity`: any of played, non-zero play count,
non-zero playback position, or favorite (a `None` field is falsy). -/
def hasUserActivity : Option UserItemDataDto → Bool
  | none => false
  | some u =>
      u.played.getD false || u.playCount.getD 0 ≠ 0
        || u.playbackPositionTicks.getD 0 ≠ 0 || u.isFavorite.getD false

/-- `JellyfinClient._item_has_user_activity`.  `listShowEpisodes` abstracts
`list_show_episodes` (a network call that can raise; a raise is caught and
yields `False`). -/
def itemHasUserActivity
    (listShowEpisodes : String → Except Unit (List BaseItemDto))
    (item : BaseItemDto) (sectionCollectionType : Option CollectionType) :
    Bool :=
  if hasUserActivity item.userData then true
  else if sectionCollectionType ≠ some CollectionType.tvshows then false
  else if item.type ≠ some BaseItemKind.series then false
  else
    match item.id with
    | none => false
    | some showId =>
      match listShowEpisodes showId with
      | .error _ => false
      | .ok episodes => episodes.any (fun e => hasUserActivity e.userData)

/-- The `require_watched` stage of `JellyfinClient.list_section_items`. -/
def watchedFilter (listShowEpisodes : String → Except Unit (List BaseItemDto))
    (sectionItem : BaseItemDto) (fetched : List BaseItemDto)
    (requireWatched : Bool) : List BaseItemDto :=
  if requireWatched then
    fetched.filter
      (fun item => itemHasUserActivity listShowEpisodes item
        sectionItem.collectionType)
  else fetched

/-- `JellyfinClient.list_section_items` after the fetch: `fetched` is what
`_fetch_section_items` returned for the section. -/
def listSectionItems
    (listShowEpisodes : String → Except Unit (List BaseItemDto))
    (sectionItem : BaseItemDto) (fetched : List BaseItemDto)
    (requireWatched : Bool) (keys : Option (List String)) : List BaseItemDto :=
  match keys with
  | none => watchedFilter listShowEpisodes sectionItem fetched requireWatched
  | some ks =>
    (watchedFilter listShowEpisodes sectionItem fetched requireWatched).filter
      (fun item =>
        match item.id with
        | some v => ks.contains v
        | none => false)

/-- The lowered genre filter computed in `JellyfinClient.__init__` (a set in
the code; embedded as the list of lowered values, which has the same
membership). -/
def clientGenreFilter (genreFilter : Option (List String)) : List String :=
  (genreFilter.getD []).map pyLower

/-- The client-side genre filtering at the end of
`JellyfinClient._fetch_section_items` (`items` is the API response). -/
def fetchSectionItemsGenreStage (genreFilterLowered : List String)
    (items : List BaseItemDto) : List BaseItemDto :=
  if genreFilterLowered.isEmpty then items
  else
    items.filter
      (fun item =>
        (item.genres.getD []).any
          (fun genre => genreFilterLowered.contains (pyLower genre)))

/-! ### `client.py`: `_load_show_metadata_fetchers` -/

/-- The `enabled_set` computed per type option: `None` when the enabled
fetcher list is absent or empty. -/
def enabledSet (option : TypeOptions) : Option (List String) :=
  match option.metadataFetchers with
  | some fetchers => if fetchers.isEmpty then none else some fetchers
  | none => none

/-- The fetcher-selection loop body of `_load_show_metadata_fetchers` for one
SERIES type option: with a non-empty ordered list, the first truthy ordered
entry passing the enabled-set check; otherwise the first truthy enabled
entry. -/
def fetcherFromOption (option : TypeOptions) : Option String :=
  if (option.metadataFetcherOrder.getD []).isEmpty then
    (option.metadataFetchers.getD []).find? (fun fetcher => fetcher ≠ "")
  else
    (option.metadataFetcherOrder.getD []).find? (fun fetcher =>
      fetcher ≠ "" &&
        match enabledSet option with
        | none => true
        | some s => s.contains fetcher)

/-- The loop over a folder's type options: skip non-SERIES options and stop
at the first option that yields a truthy fetcher. -/
def seriesOptionScan : List TypeOptions → Option String
  | [] => none
  | option :: rest =>
    if option.type ≠ some BaseItemKind.series then seriesOptionScan rest
    else
      match fetcherFromOption option with
      | some fetcher =>
          if fetcher = "" then seriesOptionScan rest else some fetcher
      | none => seriesOptionScan rest

/-- The final `if metadata_fetcher:` guard: record the section only when the
scan produced a truthy fetcher. -/
def folderEntryScan (sectionId : String) :
    Option String → Option (String × String)
  | some fetcher => if fetcher = "" then none else some (sectionId, fetcher)
  | none => none

/-- The `if not type_options: continue` guard. -/
def folderEntryTypeOptions (sectionId : String) :
    Option (List TypeOptions) → Option (String × String)
  | none => none
  | some options =>
    if options.isEmpty then none
    else folderEntryScan sectionId (seriesOptionScan options)

/-- The entry `_load_show_metadata_fetchers` records for one virtual folder:
TV-shows folders with type options and a selected fetcher map their section
id to that fetcher; every other folder contributes nothing.
(`library_options.type_options if library_options else None` is
`Option.bind`.) -/
def folderEntry (folder : VirtualFolderInfo) : Option (String × String) :=
  if folder.collectionType ≠ some CollectionTypeOptions.tvshows then none
  else
    folderEntryTypeOptions (folder.itemId.getD "")
      (folder.libraryOptions.bind LibraryOptions.typeOptions)

/-- The folder loop of `_load_show_metadata_fetchers`, with the result
dictionary embedded as a function updated by assignment. -/
def loadShowMetadataFetchersFrom (acc : String → Option String) :
    List VirtualFolderInfo → (String → Option String)
  | [] => acc
  | folder :: rest =>
    loadShowMetadataFetchersFrom
      (match folderEntry folder with
       | some e => fun k => if k = e.1 then some e.2 else acc k
       | none => acc) rest

/-- `JellyfinClient._load_show_metadata_fetchers` over the virtual folders
the server returned. -/
def loadShowMetadataFetchers (folders : List VirtualFolderInfo) :
    String → Option String :=
  loadShowMetadataFetchersFrom (fun _ => none) folders

/-- Claim C1's selection rule for one SERIES type option, written from the
specification's words: if the ordered fetcher list is non-empty, the first
non-empty ordered entry that is also a member of the enabled list (when a
non-empty enabled list is present; with no enabled list, the first non-empty
ordered entry); if the ordered list is empty, the first non-empty enabled
entry. -/
def c1SpecSelectOption (o : TypeOptions) : Option String :=
  if o.metadataFetcherOrder.getD [] ≠ [] then
    if o.metadataFetchers.getD [] ≠ [] then
      (o.metadataFetcherOrder.getD []).find? (fun f =>
        f ≠ "" && (o.metadataFetchers.getD []).contains f)
    else
      (o.metadataFetcherOrder.getD []).find? (fun f => f ≠ "")
  else
    (o.metadataFetchers.getD []).find? (fun f => f ≠ "")

/-- Claim C1's selection for a folder: the first SERIES type option that
selects a fetcher. -/
def c1SpecSelect (folder : VirtualFolderInfo) : Option String :=
  (((folder.libraryOptions.bind LibraryOptions.typeOptions).getD []).filter
    (fun o => o.type = some BaseItemKind.series)).findSome? c1SpecSelectOption

/-- Claim C1's map entry for a folder: only TV-shows folders with a selected
fetcher are recorded. -/
def c1SpecEntry (folder : VirtualFolderInfo) : Option (String × String) :=
  if folder.collectionType = some CollectionTypeOptions.tvshows then
    match c1SpecSelect folder with
    | some fetcher => some (folder.itemId.getD "", fetcher)
    | none => none
  else none

/-- Claim C1's map over all folders. -/
def c1SpecMapFrom (acc : String → Option String) :
    List VirtualFolderInfo → (String → Option String)
  | [] => acc
  | folder :: rest =>
    c1SpecMapFrom
      (match c1SpecEntry folder with
       | some e => fun k => if k = e.1 then some e.2 else acc k
       | none => acc) rest

/-- Claim C1's map over all folders, starting empty. -/
def c1SpecMap (folders : List VirtualFolderInfo) : String → Option String :=
  c1SpecMapFrom (fun _ => none) folders

/-! ### `library.py`: mapping descriptors and the strict provider map -/

/-- The kind of a library entry (`MediaKind`). -/
inductive MediaKind where
  | movie
  | show
  | season
  | episode
  deriving DecidableEq, Repr

/-- `_PROVIDER_ID_MAP`, looked up by media key (`dict.get` with `{}`
default). -/
def providerIdMap (mediaKey : String) : List (String × String) :=
  if mediaKey = "movie" then
    [("anidb", "anidb"), ("anilist", "anilist"), ("imdb", "imdb_movie"),
     ("tmdb", "tmdb_movie"), ("tvdb", "tvdb_movie")]
  else if mediaKey = "show" then
    [("anidb", "anidb"), ("anilist", "anilist"), ("imdb", "imdb_show"),
     ("tmdb", "tmdb_show"), ("tvdb", "tvdb_show")]
  else []

/-- `_STRICT_FETCHER_TO_PROVIDER`. -/
def strictFetcherToProvider : List (String × String) :=
  [("AniDB", "anidb"), ("AniList", "anilist"), ("TheTVDB", "tvdb_show"),
   ("TheMovieDb", "tmdb_show"), ("IMDb", "imdb_show")]

/-- The descriptor list `JellyfinLibraryEntry.mapping_descriptors` builds from
the item's provider ids before the strict restriction: skip falsy values,
lower the provider key, keep only keys present in the media-kind map. -/
def baseMappingDescriptors (mediaKind : MediaKind)
    (providerIds : List (String × Option String)) :
    List (String × String × Option String) :=
  providerIds.filterMap (fun p =>
    match p.2 with
    | none => none
    | some value =>
      if value = "" then none
      else
        match (providerIdMap
            (if mediaKind = MediaKind.show then "show" else "movie")).lookup
            (pyLower p.1) with
        | none => none
        | some mapped =>
            if mapped = "" then none
            else some (mapped, value, none))

/-- `JellyfinLibraryEntry.mapping_descriptors`.
`strictShowProviderBySection` is the provider's
`_strict_show_provider_by_section` dictionary. -/
def mappingDescriptors (strict : Bool)
    (strictShowProviderBySection : String → Option String)
    (sectionKey : String) (mediaKind : MediaKind)
    (providerIds : List (String × Option String)) :
    List (String × String × Option String) :=
  let descriptors := baseMappingDescriptors mediaKind providerIds
  if mediaKind = MediaKind.show && strict then
    match strictShowProviderBySection sectionKey with
    | none => []
    | some required =>
        if required = "" then []
        else descriptors.filter (fun d => d.1 = required)
  else descriptors

/-- A library section as `initialize` sees it: its key and media kind. -/
structure SectionInfo where
  key : String
  mediaKind : MediaKind
  deriving DecidableEq, Repr

/-- The walrus assignment in the strict-provider loop: record the provider
found for the fetcher when it is truthy. -/
def strictMapAssign (acc : String → Option String) (key : String) :
    Option String → (String → Option String)
  | none => acc
  | some provider =>
      if provider = "" then acc
      else fun k => if k = key then some provider else acc k

/-- The `if not metadata_fetcher: continue` guard and table lookup of the
strict-provider loop. -/
def strictMapFetcher (acc : String → Option String) (key : String) :
    Option String → (String → Option String)
  | none => acc
  | some fetcher =>
      if fetcher = "" then acc
      else strictMapAssign acc key (strictFetcherToProvider.lookup fetcher)

/-- One iteration of the strict-provider loop in
`JellyfinLibraryProvider.initialize`: show sections with a known metadata
fetcher that maps through `_STRICT_FETCHER_TO_PROVIDER` get an entry. -/
def strictMapStep (fetch : String → Option String)
    (acc : String → Option String) (s : SectionInfo) : String → Option String :=
  if s.mediaKind ≠ MediaKind.show then acc
  else strictMapFetcher acc s.key (fetch s.key)

/-- The strict-provider loop of `initialize` over the section list. -/
def buildStrictShowProviders (fetch : String → Option String)
    (acc : String → Option String) : List SectionInfo → (String → Option String)
  | [] => acc
  | s :: rest => buildStrictShowProviders fetch (strictMapStep fetch acc s) rest

/-- `_strict_show_provider_by_section` after `initialize`: cleared, then
populated only when strict.  `fetch` is
`JellyfinClient.show_metadata_fetcher_for_section`. -/
def initializeStrictShowProviders (strict : Bool)
    (sections : List SectionInfo) (fetch : String → Option String) :
    String → Option String :=
  if strict then buildStrictShowProviders fetch (fun _ => none) sections
  else fun _ => none

/-! ### `webhook.py`: `JellyfinWebhook` -/

/-- A parsed webhook payload: an association list of keys to values, a value
being `none` for JSON `null`.  `mkWebhook` lowers the keys the way the
`JellyfinWebhook` constructor does. -/
structure Webhook where
  data : List (String × Option String)
  deriving DecidableEq, Repr

/-- `JellyfinWebhook.__init__`: lower-case every key. -/
def mkWebhook (data : List (String × Option String)) : Webhook :=
  ⟨data.map (fun p => (pyLower p.1, p.2))⟩

/-- Python `dict` construction/lookup: the value of a key is the value of its
last occurrence (later assignments overwrite earlier ones). -/
def dictGet (data : List (String × Option String)) (key : String) :
    Option (Option String) :=
  ((data.filter (fun p => p.1 = key)).getLast?).map (fun p => p.2)

/-- `JellyfinWebhook._string_value`: `None` for an absent key or `null` value,
otherwise the stripped text when non-empty. -/
def stringValue (w : Webhook) (key : String) : Option String :=
  match dictGet w.data key with
  | none => none
  | some none => none
  | some (some v) =>
      let text := pyStrip v
      if text = "" then none else some text

/-- `JellyfinWebhook.notification_type`. -/
def notificationType (w : Webhook) : Option String :=
  stringValue w "notificationtype"

/-- `JellyfinWebhook.user_id`. -/
def userId (w : Webhook) : Option String :=
  stringValue w "userid"

/-- `JellyfinWebhook.username` (`notificationusername` falling back to `username`). -/
def username (w : Webhook) : Option String :=
  match stringValue w "notificationusername" with
  | some v => some v
  | none => stringValue w "username"

/-- `JellyfinWebhook.item_type`. -/
def itemType (w : Webhook) : Option String :=
  stringValue w "itemtype"

/-- `JellyfinWebhook.item_id`. -/
def itemId (w : Webhook) : Option String :=
  stringValue w "itemid"

/-- `JellyfinWebhook.series_id`. -/
def seriesId (w : Webhook) : Option String :=
  stringValue w "seriesid"

/-- `JellyfinWebhook.top_level_item_id`. -/
def topLevelItemId (w : Webhook) : Option String :=
  let ty := pyLower ((itemType w).getD "")
  if (ty = "episode" || ty = "season") && (seriesId w).isSome then
    seriesId w
  else
    match itemId w with
    | some v => some v
    | none => seriesId w

/-- The rule of claim C6, written from the specification's words: the series
id when the item type is episode or season (case-insensitively) and a
non-empty series id is present; otherwise the item id, falling back to the
series id when the item id is absent, and `none` when both are absent. -/
def c6SpecTopLevelItemId (ty itemIdv seriesIdv : Option String) : Option String :=
  if (pyLower (ty.getD "") = "episode" || pyLower (ty.getD "") = "season")
      && seriesIdv.isSome then
    seriesIdv
  else if itemIdv.isSome then
    itemIdv
  else if seriesIdv.isSome then
    seriesIdv
  else
    none

/-! ### `webhook.py`: `JellyfinWebhook.from_request` -/

/-- A JSON value, as decoded by `json.loads` / `request.json()`. -/
inductive Json where
  | null
  | boolean (b : Bool)
  | number (n : Int)
  | str (s : String)
  | arr (elements : List Json)
  | obj (fields : List (String × Json))
  deriving Repr

/-- An inbound HTTP request as `from_request` observes it: the content-type
header, the form data, and the result of `request.json()` (which either
yields a decoded value or raises). -/
structure Request where
  contentType : String
  form : List (String × String)
  jsonBody : Except Unit Json

/-- Python `str.startswith`, embedded character-wise. -/
def pyStartsWith (s pre : String) : Bool :=
  pre.data.isPrefixOf s.data

/-- Whether the content type selects the form-data branch of `from_request`. -/
def isFormContentType (contentType : String) : Bool :=
  pyStartsWith (pyLower contentType) "multipart/form-data"
    || pyStartsWith (pyLower contentType) "application/x-www-form-urlencoded"

/-- The JSON-decoding part of `JellyfinWebhook.from_request` (everything
before the mapping check).  `loads` abstracts `json.loads`; `ValueError`
is `Except.error`. -/
def decodePayload (loads : String → Except Unit Json) (req : Request) :
    Except String Json :=
  let step1 : Except String Json :=
    if isFormContentType req.contentType then
      match req.form.lookup "payload" with
      | some payloadRaw =>
          if payloadRaw ≠ "" then
            match loads payloadRaw with
            | .ok d => .ok d
            | .error _ => .error "Invalid payload JSON"
          else
            .ok (Json.obj (req.form.map (fun p => (p.1, Json.str p.2))))
      | none => .ok (Json.obj (req.form.map (fun p => (p.1, Json.str p.2))))
    else
      match req.jsonBody with
      | .ok d => .ok d
      | .error _ => .error "Invalid JSON body"
  match step1 with
  | .error e => .error e
  | .ok (Json.str s) =>
      match loads s with
      | .ok d => .ok d
      | .error _ => .error "Invalid JSON payload"
  | .ok d => .ok d

/-- `JellyfinWebhook.from_request`: decode the payload and require it to be a
JSON object (a mapping). -/
def fromRequest (loads : String → Except Unit Json) (req : Request) :
    Except String (List (String × Json)) :=
  match decodePayload loads req with
  | .error e => .error e
  | .ok (Json.obj fields) => .ok fields
  | .ok _ => .error "Invalid payload structure: expected a JSON object"

/-! ### `library.py`: `JellyfinLibraryProvider.parse_webhook` -/

/-- `JellyfinWebhookNotificationType`: the notification types relevant for
library sync. -/
inductive NotificationType where
  | itemAdded
  | playbackStop
  | userDataSaved
  deriving DecidableEq, Repr

/-- The `StrEnum` value-lookup `JellyfinWebhookNotificationType(value)`:
`none` embeds the `ValueError` raised for an unsupported value. -/
def notificationTypeOfString (s : String) : Option NotificationType :=
  if s = "ItemAdded" then some .itemAdded
  else if s = "PlaybackStop" then some .playbackStop
  else if s = "UserDataSaved" then some .userDataSaved
  else none

/-- The `sync_events` set built in `parse_webhook`. -/
def syncEvents : List NotificationType :=
  [.itemAdded, .playbackStop, .userDataSaved]

/-- `LibraryUser` as stored on the provider after initialization. -/
structure LibraryUser where
  key : String
  title : String
  deriving DecidableEq, Repr

/-- The `user_id_match` expression of `parse_webhook`: the payload carries a
user id equal, case-insensitively, to the provider user's key. -/
def userIdMatch (u : LibraryUser) (w : Webhook) : Bool :=
  match userId w with
  | some uid => pyLower uid = pyLower u.key
  | none => false

/-- The `user_name_match` expression of `parse_webhook`: the payload carries
a username, the provider user has a non-empty title, and the two are equal
case-insensitively. -/
def userNameMatch (u : LibraryUser) (w : Webhook) : Bool :=
  match username w with
  | some un => u.title ≠ "" && pyLower un = pyLower u.title
  | none => false

/-- The user check of `parse_webhook`, reached for `PlaybackStop` and
`UserDataSaved` events: without an initialized provider user or a user
match the event is ignored. -/
def parseUserGate (user : Option LibraryUser) (w : Webhook) (key : String) :
    Except String (Bool × List String) :=
  match user with
  | none => .ok (false, [])
  | some u =>
    if userIdMatch u w || userNameMatch u w then .ok (true, [key])
    else .ok (false, [])

/-- `JellyfinLibraryProvider.parse_webhook`, applied to an already-parsed
payload.  `user` is the provider's `_user` attribute; the raised
`ValueError`s are `Except.error`. -/
def parseWebhook (user : Option LibraryUser) (w : Webhook) :
    Except String (Bool × List String) :=
  match notificationType w with
  | none => .error "No notification type found in webhook payload"
  | some nt =>
    match topLevelItemId w with
    | none => .error "No item ID found in webhook payload"
    | some key =>
      match notificationTypeOfString nt with
      | none => .ok (false, [])
      | some ntEnum =>
        if ntEnum ∉ syncEvents then .ok (false, [])
        else if ntEnum = .itemAdded then .ok (true, [key])
        else parseUserGate user w key

/-! ### Claim theorems (first batch) -/

/-- A concrete configuration that explicitly sets strict to false. -/
def cfgStrictFalse : ProviderConfig where
  url := some "http://jellyfin"
  token := some "token"
  user := some "demo"
  strict := some false

/-- A concrete complete configuration. -/
def cfgComplete : ProviderConfig where
  url := some "http://jellyfin"
  token := some "token"
  user := some "demo"

/-- A concrete configuration with the token missing. -/
def cfgNoToken : ProviderConfig where
  url := some "http://jellyfin"
  user := some "demo"

/-- `pyOrStr v ""` is empty exactly when the value is absent, `None`, or empty. -/
theorem pyOrStr_empty_iff (v : Option String) :
    pyOrStr v "" = "" ↔ (v = none ∨ v = some "") := by
  cases v with
  | none => simp [pyOrStr]
  | some s =>
      by_cases h : s = "" <;> simp [pyOrStr, h]

/-- `pyOrBool v true` is always `true`. -/
theorem pyOrBool_true (v : Option Bool) : pyOrBool v true = true := by
  cases v with
  | none => rfl
  | some b => cases b <;> rfl

/-- C5: every configuration accepted by the `JellyfinLibraryProvider`
constructor yields a provider whose strict flag is `true`, because the flag
is computed as `bool(config.get("strict") or True)`. -/
theorem c5_strict_always_true (config : Option ProviderConfig)
    (st : ProviderState) (h : providerInit config = .ok st) :
    st.strict = true := by
  unfold providerInit at h
  split at h
  · exact absurd h (by simp)
  · simp only [Except.ok.injEq] at h
    subst h
    exact pyOrBool_true _

/-- Witness for C5 at a configuration that explicitly sets `strict := false`. -/
theorem c5_strict_always_true_witness :
    ∃ st, providerInit (some cfgStrictFalse) = .ok st ∧ st.strict = true := by
  have h : providerInit (some cfgStrictFalse) =
      .ok { clientUrl := "http://jellyfin", clientToken := "token",
            clientUser := "demo", sectionFilter := [], genreFilter := [],
            strict := true } := by
    simp [providerInit, cfgStrictFalse, pyOrStr, pyOrBool]
  exact ⟨_, h, c5_strict_always_true _ _ h⟩

/-- C10: the provider constructor fails with `ValueError` exactly when one of
`url`, `token`, `user` is missing, `None`, or empty; otherwise construction
succeeds (and, being a pure sequence of assignments, contacts no server). -/
theorem c10_constructor_validation (config : ProviderConfig) :
    ((∃ e, providerInit (some config) = .error e) ↔
      (config.url = none ∨ config.url = some "" ∨
       config.token = none ∨ config.token = some "" ∨
       config.user = none ∨ config.user = some "")) ∧
    (¬(config.url = none ∨ config.url = some "" ∨
       config.token = none ∨ config.token = some "" ∨
       config.user = none ∨ config.user = some "") →
      ∃ st, providerInit (some config) = .ok st) := by
  have hchar : (∃ e, providerInit (some config) = .error e) ↔
      (pyOrStr config.url "" = "" ∨ pyOrStr config.token "" = "" ∨
       pyOrStr config.user "" = "") := by
    constructor
    · intro ⟨e, he⟩
      unfold providerInit at he
      split at he
      · rename_i hcond
        simp only [Bool.or_eq_true, decide_eq_true_eq] at hcond
        tauto
      · exact absurd he (by simp)
    · intro h
      unfold providerInit
      rcases h with h | h | h <;> simp [h]
  have hflat : (pyOrStr config.url "" = "" ∨ pyOrStr config.token "" = "" ∨
      pyOrStr config.user "" = "") ↔
      (config.url = none ∨ config.url = some "" ∨
       config.token = none ∨ config.token = some "" ∨
       config.user = none ∨ config.user = some "") := by
    rw [pyOrStr_empty_iff, pyOrStr_empty_iff, pyOrStr_empty_iff]
    tauto
  refine ⟨hchar.trans hflat, ?_⟩
  intro h
  cases hpi : providerInit (some config) with
  | error e => exact absurd ((hchar.trans hflat).mp ⟨e, hpi⟩) h
  | ok st => exact ⟨st, rfl⟩

/-- Witness for C10: an all-present configuration constructs successfully, and
a configuration missing the token fails. -/
theorem c10_constructor_validation_witness :
    (∃ st, providerInit (some cfgComplete) = .ok st) ∧
    (∃ e, providerInit (some cfgNoToken) = .error e) := by
  constructor
  · exact (c10_constructor_validation cfgComplete).2 (by simp [cfgComplete])
  · exact ((c10_constructor_validation cfgNoToken).1).2 (by simp [cfgNoToken])

/-- `_string_value` never returns an empty string. -/
theorem stringValue_ne_empty (w : Webhook) (k v : String)
    (h : stringValue w k = some v) : v ≠ "" := by
  unfold stringValue at h
  rcases hd : dictGet w.data k with _ | _ | raw
  · rw [hd] at h; exact absurd h (by simp)
  · rw [hd] at h; exact absurd h (by simp)
  · rw [hd] at h
    simp only at h
    split at h
    · exact absurd h (by simp)
    · rename_i hne
      simp only [Option.some.injEq] at h
      subst h
      exact hne

/-- The webhook username is never the empty string. -/
theorem username_ne_empty (w : Webhook) (un : String)
    (h : username w = some un) : un ≠ "" := by
  unfold username at h
  rcases h1 : stringValue w "notificationusername" with _ | v
  · rw [h1] at h
    exact stringValue_ne_empty w "username" un h
  · rw [h1] at h
    have hv : v = un := by simpa using h
    exact hv ▸ stringValue_ne_empty w "notificationusername" v h1

/-- `user_name_match` holds exactly when the payload carries a username equal
case-insensitively to the provider user's title (the non-empty-title guard in
the code is redundant: webhook usernames are never empty). -/
theorem userNameMatch_iff (u : LibraryUser) (w : Webhook) :
    userNameMatch u w = true ↔
      ∃ un, username w = some un ∧ pyLower un = pyLower u.title := by
  cases hun : username w with
  | none => simp [userNameMatch, hun]
  | some un =>
    have hne := username_ne_empty w un hun
    simp only [userNameMatch, hun, Bool.and_eq_true, decide_eq_true_eq, ne_eq,
      Option.some.injEq]
    constructor
    · intro h
      exact ⟨un, rfl, h.2⟩
    · intro h
      obtain ⟨un2, he, h2⟩ := h
      subst he
      refine ⟨?_, h2⟩
      intro htitle
      rw [htitle] at h2
      have hl : pyLower un = "" := by rw [h2]; rfl
      exact hne ((pyLower_eq_empty_iff un).mp hl)

/-- `user_id_match` holds exactly when the payload carries a user id equal
case-insensitively to the provider user's key. -/
theorem userIdMatch_iff (u : LibraryUser) (w : Webhook) :
    userIdMatch u w = true ↔
      ∃ uid, userId w = some uid ∧ pyLower uid = pyLower u.key := by
  cases hid : userId w with
  | none => simp [userIdMatch, hid]
  | some uid => simp [userIdMatch, hid]

/-- The user gate returns the sync signal exactly when a provider user is set
and matched by the payload, and it only ever returns the two ok outcomes. -/
theorem parseUserGate_ok_iff (user : Option LibraryUser) (w : Webhook)
    (key : String) :
    (parseUserGate user w key = .ok (true, [key]) ↔
      ∃ u, user = some u ∧
        ((∃ uid, userId w = some uid ∧ pyLower uid = pyLower u.key) ∨
         (∃ un, username w = some un ∧ pyLower un = pyLower u.title))) ∧
    (parseUserGate user w key = .ok (true, [key]) ∨
     parseUserGate user w key = .ok (false, [])) := by
  cases user with
  | none =>
    constructor
    · simp [parseUserGate]
    · right; rfl
  | some u =>
    rw [show parseUserGate (some u) w key =
        (if userIdMatch u w || userNameMatch u w then .ok (true, [key])
         else .ok (false, [])) from rfl]
    by_cases h : (userIdMatch u w || userNameMatch u w) = true
    · rw [if_pos h]
      constructor
      · simp only [true_iff]
        refine ⟨u, rfl, ?_⟩
        rcases Bool.or_eq_true .. |>.mp h with h' | h'
        · exact Or.inl ((userIdMatch_iff u w).mp h')
        · exact Or.inr ((userNameMatch_iff u w).mp h')
      · left; rfl
    · rw [if_neg h]
      constructor
      · constructor
        · intro hfalse
          exact absurd hfalse (by simp)
        · intro hex
          obtain ⟨u2, hu2, hm⟩ := hex
          rw [Option.some.injEq] at hu2
          subst hu2
          apply absurd _ h
          rcases hm with hm | hm
          · exact Bool.or_eq_true .. |>.mpr (.inl ((userIdMatch_iff u w).mpr hm))
          · exact Bool.or_eq_true .. |>.mpr (.inr ((userNameMatch_iff u w).mpr hm))
      · right; rfl

/-- C6: `top_level_item_id` is the series id when the item type is episode or
season (case-insensitively) and a non-empty series id is present; otherwise
the item id, falling back to the series id when the item id is absent, and
`None` when both are absent. -/
theorem c6_top_level_item_id (w : Webhook) :
    topLevelItemId w = c6SpecTopLevelItemId (itemType w) (itemId w) (seriesId w) := by
  unfold topLevelItemId c6SpecTopLevelItemId
  rcases hi : itemId w with _ | v <;> rcases hs : seriesId w with _ | sv <;>
    simp [hi, hs]

/-- C3: for a successfully parsed payload with a notification type and a
top-level item id, `parse_webhook` returns `(True, (id,))` exactly when the
notification type is `ItemAdded`, `PlaybackStop` or `UserDataSaved`, and for
the latter two the provider user is set and the payload's user id or username
matches the provider user's key or title case-insensitively; in every other
case it returns `(False, ())`. -/
theorem c3_parse_webhook (user : Option LibraryUser) (w : Webhook)
    (nt key : String) (hnt : notificationType w = some nt)
    (hkey : topLevelItemId w = some key) :
    (parseWebhook user w = .ok (true, [key]) ↔
      (nt = "ItemAdded" ∨
        ((nt = "PlaybackStop" ∨ nt = "UserDataSaved") ∧
          ∃ u, user = some u ∧
            ((∃ uid, userId w = some uid ∧ pyLower uid = pyLower u.key) ∨
             (∃ un, username w = some un ∧ pyLower un = pyLower u.title))))) ∧
    (parseWebhook user w = .ok (true, [key]) ∨
     parseWebhook user w = .ok (false, [])) := by
  by_cases h1 : nt = "ItemAdded"
  · subst h1
    have hred : parseWebhook user w = .ok (true, [key]) := by
      unfold parseWebhook
      rw [hnt, hkey]
      rfl
    rw [hred]
    exact ⟨by simp, Or.inl rfl⟩
  · by_cases h2 : nt = "PlaybackStop"
    · subst h2
      have hred : parseWebhook user w = parseUserGate user w key := by
        unfold parseWebhook
        rw [hnt, hkey]
        rfl
      rw [hred]
      refine ⟨?_, (parseUserGate_ok_iff user w key).2⟩
      rw [(parseUserGate_ok_iff user w key).1]
      constructor
      · intro h
        exact Or.inr ⟨Or.inl rfl, h⟩
      · intro h
        rcases h with h | ⟨_, h⟩
        · exact absurd h (by simp)
        · exact h
    · by_cases h3 : nt = "UserDataSaved"
      · subst h3
        have hred : parseWebhook user w = parseUserGate user w key := by
          unfold parseWebhook
          rw [hnt, hkey]
          rfl
        rw [hred]
        refine ⟨?_, (parseUserGate_ok_iff user w key).2⟩
        rw [(parseUserGate_ok_iff user w key).1]
        constructor
        · intro h
          exact Or.inr ⟨Or.inr rfl, h⟩
        · intro h
          rcases h with h | ⟨_, h⟩
          · exact absurd h (by simp)
          · exact h
      · have hnone : notificationTypeOfString nt = none := by
          simp [notificationTypeOfString, h1, h2, h3]
        have hred0 : parseWebhook user w =
            match notificationTypeOfString nt with
            | none => .ok (false, [])
            | some ntEnum =>
              if ntEnum ∉ syncEvents then .ok (false, [])
              else if ntEnum = .itemAdded then .ok (true, [key])
              else parseUserGate user w key := by
          unfold parseWebhook
          rw [hnt, hkey]
        have hred : parseWebhook user w = .ok (false, []) := by
          rw [hred0, hnone]
        rw [hred]
        refine ⟨?_, Or.inr rfl⟩
        constructor
        · intro hfalse
          exact absurd hfalse (by simp)
        · intro hr
          rcases hr with hr | ⟨hr, _⟩
          · exact absurd hr h1
          · rcases hr with hr | hr
            · exact absurd hr h2
            · exact absurd hr h3

/-- A payload carrying `UserDataSaved` from the matching user. -/
def whUserDataSaved : Webhook :=
  mkWebhook [("NotificationType", some "UserDataSaved"),
             ("ItemId", some "item-1"),
             ("UserId", some "User-A")]

/-- The provider user matching `whUserDataSaved`. -/
def demoUser : LibraryUser where
  key := "user-a"
  title := "Demo"

/-- Witness for C3 at a concrete `UserDataSaved` payload from the matching
user: the parser reports `(True, ("item-1",))`. -/
theorem c3_parse_webhook_witness :
    parseWebhook (some demoUser) whUserDataSaved = .ok (true, ["item-1"]) := by
  have h := c3_parse_webhook (some demoUser) whUserDataSaved
    "UserDataSaved" "item-1" (by decide) (by decide)
  exact h.1.mpr (Or.inr ⟨Or.inr rfl, demoUser, rfl,
    Or.inl ⟨"User-A", by decide, by decide⟩⟩)

/-- C8: `from_request` fails with `ValueError` on a non-JSON body, on a form
`payload` field that is not valid JSON, and on a decoded payload that is not
a JSON object; `parse_webhook` fails with `ValueError` when the payload lacks
a notification type or a top-level item id. -/
theorem c8_value_errors :
    (∀ (loads : String → Except Unit Json) (req : Request),
        isFormContentType req.contentType = false →
        req.jsonBody = .error () →
        ∃ e, fromRequest loads req = .error e) ∧
    (∀ (loads : String → Except Unit Json) (req : Request) (p : String),
        isFormContentType req.contentType = true →
        req.form.lookup "payload" = some p → p ≠ "" →
        loads p = .error () →
        ∃ e, fromRequest loads req = .error e) ∧
    (∀ (loads : String → Except Unit Json) (req : Request) (d : Json),
        decodePayload loads req = .ok d →
        (∀ fields, d ≠ Json.obj fields) →
        ∃ e, fromRequest loads req = .error e) ∧
    (∀ (user : Option LibraryUser) (w : Webhook),
        notificationType w = none →
        ∃ e, parseWebhook user w = .error e) ∧
    (∀ (user : Option LibraryUser) (w : Webhook) (nt : String),
        notificationType w = some nt → topLevelItemId w = none →
        ∃ e, parseWebhook user w = .error e) := by
  refine ⟨?_, ?_, ?_, ?_, ?_⟩
  · intro loads req hform hbody
    refine ⟨"Invalid JSON body", ?_⟩
    unfold fromRequest decodePayload
    rw [hform, hbody]
    simp
  · intro loads req p hform hlookup hne hloads
    refine ⟨"Invalid payload JSON", ?_⟩
    unfold fromRequest decodePayload
    rw [hform, hlookup]
    simp [hne, hloads]
  · intro loads req d hdecode hnotobj
    unfold fromRequest
    rw [hdecode]
    cases d with
    | obj fields => exact absurd rfl (hnotobj fields)
    | null => exact ⟨_, rfl⟩
    | boolean b => exact ⟨_, rfl⟩
    | number n => exact ⟨_, rfl⟩
    | str s => exact ⟨_, rfl⟩
    | arr xs => exact ⟨_, rfl⟩
  · intro user w hnt
    refine ⟨"No notification type found in webhook payload", ?_⟩
    unfold parseWebhook
    rw [hnt]
  · intro user w nt hnt hkey
    refine ⟨"No item ID found in webhook payload", ?_⟩
    unfold parseWebhook
    rw [hnt, hkey]

/-- A `json.loads` stand-in for the witness: rejects every string. -/
def toyLoads : String → Except Unit Json := fun _ => .error ()

/-- A JSON-content-type request whose body fails to parse. -/
def reqBadJson : Request where
  contentType := "application/json"
  form := []
  jsonBody := .error ()

/-- A form request whose `payload` field fails to parse. -/
def reqBadForm : Request where
  contentType := "multipart/form-data; boundary=x"
  form := [("payload", "not-json")]
  jsonBody := .error ()

/-- A JSON request whose body decodes to a non-object. -/
def reqNonObject : Request where
  contentType := "application/json"
  form := []
  jsonBody := .ok (Json.number 3)

/-- A payload with a notification type but no item id. -/
def whOnlyType : Webhook :=
  mkWebhook [("NotificationType", some "ItemAdded")]

/-- Witness for C8: each of the five `ValueError` situations at a concrete
input. -/
theorem c8_value_errors_witness :
    (∃ e, fromRequest toyLoads reqBadJson = .error e) ∧
    (∃ e, fromRequest toyLoads reqBadForm = .error e) ∧
    (∃ e, fromRequest toyLoads reqNonObject = .error e) ∧
    (∃ e, parseWebhook none (mkWebhook []) = .error e) ∧
    (∃ e, parseWebhook none whOnlyType = .error e) := by
  refine ⟨?_, ?_, ?_, ?_, ?_⟩
  · exact c8_value_errors.1 toyLoads reqBadJson (by decide) rfl
  · exact c8_value_errors.2.1 toyLoads reqBadForm "not-json" (by decide)
      (by decide) (by decide) rfl
  · exact c8_value_errors.2.2.1 toyLoads reqNonObject (Json.number 3) rfl
      (fun fields h => Json.noConfusion h)
  · exact c8_value_errors.2.2.2.1 none (mkWebhook []) rfl
  · exact c8_value_errors.2.2.2.2 none whOnlyType "ItemAdded" (by decide) (by decide)

/-- C2: `_item_has_user_activity` is true exactly when the item's own user
data shows activity, or the section is a TV-shows section, the item is a
series with an id, and the episode lookup succeeds with at least one episode
showing activity; a raising episode lookup yields false. -/
theorem c2_item_has_user_activity
    (listShowEpisodes : String → Except Unit (List BaseItemDto))
    (item : BaseItemDto) (sct : Option CollectionType) :
    itemHasUserActivity listShowEpisodes item sct = true ↔
      (hasUserActivity item.userData = true ∨
        (sct = some CollectionType.tvshows ∧
         item.type = some BaseItemKind.series ∧
         ∃ showId episodes, item.id = some showId ∧
           listShowEpisodes showId = .ok episodes ∧
           ∃ e ∈ episodes, hasUserActivity e.userData = true)) := by
  unfold itemHasUserActivity
  by_cases h0 : hasUserActivity item.userData = true
  · simp [h0]
  · rw [if_neg h0]
    by_cases h1 : sct = some CollectionType.tvshows
    · rw [if_neg (by simp [h1])]
      by_cases h2 : item.type = some BaseItemKind.series
      · rw [if_neg (by simp [h2])]
        cases hid : item.id with
        | none => simp [h0, h1, h2]
        | some showId =>
          cases hle : listShowEpisodes showId with
          | error u => simp [h0, h1, h2, hle]
          | ok episodes => simp [h0, h1, h2, hle, List.any_eq_true]
      · rw [if_pos (by simp [h2])]
        simp [h0, h2]
    · rw [if_pos (by simp [h1])]
      simp [h0, h1]

/-- A watched episode. -/
def watchedEpisode : BaseItemDto where
  id := some "ep-1"
  type := some BaseItemKind.episode
  userData := some { played := some true }

/-- A series item with no activity of its own. -/
def plainSeries : BaseItemDto where
  id := some "show-1"
  type := some BaseItemKind.series

/-- An episode lookup that knows `show-1`. -/
def toyEpisodes : String → Except Unit (List BaseItemDto) :=
  fun showId => if showId = "show-1" then .ok [watchedEpisode] else .error ()

/-- Witness for C2: a series with no own activity but one watched episode is
reported as having activity in a TV-shows section. -/
theorem c2_item_has_user_activity_witness :
    itemHasUserActivity toyEpisodes plainSeries (some CollectionType.tvshows)
      = true :=
  (c2_item_has_user_activity toyEpisodes plainSeries
      (some CollectionType.tvshows)).mpr
    (Or.inr ⟨rfl, rfl, "show-1", [watchedEpisode], rfl, rfl,
      watchedEpisode, by decide, by decide⟩)

/-- C7: with a `keys` argument, every returned item has an id belonging to
`keys`, and the returned sequence is a subsequence of the fetched items. -/
theorem c7_keys_filter
    (listShowEpisodes : String → Except Unit (List BaseItemDto))
    (sectionItem : BaseItemDto) (fetched : List BaseItemDto)
    (requireWatched : Bool) (ks : List String) :
    (∀ item ∈ listSectionItems listShowEpisodes sectionItem fetched
        requireWatched (some ks), ∃ v, item.id = some v ∧ v ∈ ks) ∧
    (listSectionItems listShowEpisodes sectionItem fetched requireWatched
      (some ks)).Sublist fetched := by
  constructor
  · intro item hmem
    unfold listSectionItems at hmem
    rw [List.mem_filter] at hmem
    obtain ⟨_, hid⟩ := hmem
    cases hi : item.id with
    | none => rw [hi] at hid; exact absurd hid (by simp)
    | some v =>
      rw [hi] at hid
      refine ⟨v, rfl, ?_⟩
      simpa using hid
  · unfold listSectionItems watchedFilter
    cases requireWatched with
    | false =>
      rw [if_neg (by simp)]
      exact List.filter_sublist fetched
    | true =>
      rw [if_pos rfl]
      exact (List.filter_sublist _).trans (List.filter_sublist fetched)

/-- A movie item carrying an id. -/
def movieA : BaseItemDto where
  id := some "movie-a"
  type := some BaseItemKind.movie

/-- A movie item carrying another id. -/
def movieB : BaseItemDto where
  id := some "movie-b"
  type := some BaseItemKind.movie

/-- Witness for C7 at a concrete fetched list and key set. -/
theorem c7_keys_filter_witness :
    (∀ item ∈ listSectionItems toyEpisodes {} [movieA, movieB] false
        (some ["movie-a"]), ∃ v, item.id = some v ∧ v ∈ ["movie-a"]) ∧
    (listSectionItems toyEpisodes {} [movieA, movieB] false
      (some ["movie-a"])).Sublist [movieA, movieB] :=
  c7_keys_filter toyEpisodes {} [movieA, movieB] false ["movie-a"]

/-- C9: with a non-empty genre filter every item surviving
`_fetch_section_items` has a genre whose lowercase form is in the filter;
with an empty filter the response is returned unchanged. -/
theorem c9_genre_filter (genreFilter : Option (List String))
    (items : List BaseItemDto) :
    (clientGenreFilter genreFilter = [] →
      fetchSectionItemsGenreStage (clientGenreFilter genreFilter) items
        = items) ∧
    (clientGenreFilter genreFilter ≠ [] →
      ∀ item ∈ fetchSectionItemsGenreStage (clientGenreFilter genreFilter)
          items,
        ∃ genre ∈ item.genres.getD [],
          pyLower genre ∈ clientGenreFilter genreFilter) := by
  constructor
  · intro hempty
    unfold fetchSectionItemsGenreStage
    rw [if_pos (by simp [hempty])]
  · intro hne item hmem
    unfold fetchSectionItemsGenreStage at hmem
    rw [if_neg (by simpa using hne)] at hmem
    rw [List.mem_filter] at hmem
    obtain ⟨_, hany⟩ := hmem
    rw [List.any_eq_true] at hany
    obtain ⟨genre, hg, hin⟩ := hany
    exact ⟨genre, hg, by simpa using hin⟩

/-- An item with an Action genre. -/
def actionItem : BaseItemDto where
  id := some "movie-c"
  type := some BaseItemKind.movie
  genres := some ["Action", "Drama"]

/-- Witness for C9: the empty filter leaves the response unchanged, and with
filter `["Action"]` every survivor carries a matching genre. -/
theorem c9_genre_filter_witness :
    (fetchSectionItemsGenreStage (clientGenreFilter none) [actionItem]
      = [actionItem]) ∧
    (∀ item ∈ fetchSectionItemsGenreStage
        (clientGenreFilter (some ["Action"])) [actionItem],
      ∃ genre ∈ item.genres.getD [],
        pyLower genre ∈ clientGenreFilter (some ["Action"])) := by
  constructor
  · exact (c9_genre_filter none [actionItem]).1 rfl
  · exact (c9_genre_filter (some ["Action"]) [actionItem]).2 (by decide)

/-- Every value of `_STRICT_FETCHER_TO_PROVIDER` is non-empty. -/
theorem strictFetcherToProvider_lookup_ne_empty (f p : String)
    (h : strictFetcherToProvider.lookup f = some p) : p ≠ "" := by
  simp only [strictFetcherToProvider, List.lookup] at h
  repeat' split at h
  all_goals
    first
      | (injection h with h2; rw [← h2]; decide)
      | cases h

/-- A provider recorded by the strict loop comes from a show section whose
fetcher maps through the fetcher-to-provider table, unless inherited from the
accumulator. -/
theorem buildStrictShowProviders_some (fetch : String → Option String)
    (sections : List SectionInfo) (acc : String → Option String)
    (k p : String)
    (h : buildStrictShowProviders fetch acc sections k = some p) :
    acc k = some p ∨
      ∃ s ∈ sections, s.key = k ∧ s.mediaKind = MediaKind.show ∧
        ∃ fetcher, fetch k = some fetcher ∧
          strictFetcherToProvider.lookup fetcher = some p := by
  induction sections generalizing acc with
  | nil => exact Or.inl h
  | cons s rest ih =>
    rcases ih (strictMapStep fetch acc s) h with hacc | hrest
    · unfold strictMapStep at hacc
      by_cases hshow : s.mediaKind = MediaKind.show
      · rw [if_neg (by simp [hshow])] at hacc
        cases hf : fetch s.key with
        | none =>
          rw [hf] at hacc
          simp only [strictMapFetcher] at hacc
          exact Or.inl hacc
        | some fetcher =>
          rw [hf] at hacc
          simp only [strictMapFetcher] at hacc
          by_cases hfe : fetcher = ""
          · rw [if_pos hfe] at hacc; exact Or.inl hacc
          · rw [if_neg hfe] at hacc
            cases hlk : strictFetcherToProvider.lookup fetcher with
            | none =>
              rw [hlk] at hacc
              simp only [strictMapAssign] at hacc
              exact Or.inl hacc
            | some provider =>
              rw [hlk] at hacc
              simp only [strictMapAssign] at hacc
              by_cases hpe : provider = ""
              · rw [if_pos hpe] at hacc; exact Or.inl hacc
              · rw [if_neg hpe] at hacc
                have hacc2 : (if k = s.key then some provider else acc k)
                    = some p := hacc
                by_cases hk : k = s.key
                · rw [if_pos hk] at hacc2
                  have hpp : provider = p := by simpa using hacc2
                  refine Or.inr ⟨s, List.mem_cons_self s rest, hk.symm,
                    hshow, fetcher, ?_, ?_⟩
                  · rw [hk]; exact hf
                  · rw [hlk, hpp]
                · rw [if_neg hk] at hacc2; exact Or.inl hacc2
      · rw [if_pos (by simp [hshow])] at hacc
        exact Or.inl hacc
    · obtain ⟨s2, hmem, hrest2⟩ := hrest
      exact Or.inr ⟨s2, List.mem_cons_of_mem s hmem, hrest2⟩

/-- C4: for a SHOW entry with strict mode active, `mapping_descriptors` is
empty when the section has no recorded strict show provider, and otherwise is
exactly the mapped descriptors whose provider equals the recorded one; every
recorded provider is derived from a show section's configured metadata
fetcher through the fetcher-to-provider table. -/
theorem c4_strict_mapping_descriptors (sections : List SectionInfo)
    (fetch : String → Option String) (sectionKey : String)
    (providerIds : List (String × Option String)) :
    (initializeStrictShowProviders true sections fetch sectionKey = none →
      mappingDescriptors true (initializeStrictShowProviders true sections fetch)
        sectionKey MediaKind.show providerIds = []) ∧
    (∀ p, initializeStrictShowProviders true sections fetch sectionKey = some p →
      mappingDescriptors true (initializeStrictShowProviders true sections fetch)
        sectionKey MediaKind.show providerIds =
        (baseMappingDescriptors MediaKind.show providerIds).filter
          (fun d => d.1 = p)) ∧
    (∀ p, initializeStrictShowProviders true sections fetch sectionKey = some p →
      ∃ s ∈ sections, s.key = sectionKey ∧ s.mediaKind = MediaKind.show ∧
        ∃ fetcher, fetch sectionKey = some fetcher ∧
          strictFetcherToProvider.lookup fetcher = some p) := by
  have hderive : ∀ p,
      initializeStrictShowProviders true sections fetch sectionKey = some p →
      ∃ s ∈ sections, s.key = sectionKey ∧ s.mediaKind = MediaKind.show ∧
        ∃ fetcher, fetch sectionKey = some fetcher ∧
          strictFetcherToProvider.lookup fetcher = some p := by
    intro p hp
    unfold initializeStrictShowProviders at hp
    rw [if_pos rfl] at hp
    rcases buildStrictShowProviders_some fetch sections (fun _ => none)
        sectionKey p hp with hacc | hfound
    · exact absurd hacc (by simp)
    · exact hfound
  refine ⟨?_, ?_, hderive⟩
  · intro hnone
    unfold mappingDescriptors
    rw [if_pos (by simp), hnone]
  · intro p hp
    have hpne : p ≠ "" := by
      obtain ⟨_, _, _, _, fetcher, _, hlk⟩ := hderive p hp
      exact strictFetcherToProvider_lookup_ne_empty fetcher p hlk
    unfold mappingDescriptors
    rw [if_pos (by simp), hp]
    exact if_neg hpne

/-- The show section used by the C4 witness. -/
def demoSection : SectionInfo where
  key := "sec-1"
  mediaKind := MediaKind.show

/-- A fetcher lookup reporting AniDB for the witness section. -/
def demoFetch : String → Option String :=
  fun k => if k = "sec-1" then some "AniDB" else none

/-- Provider ids carried by the witness item. -/
def demoProviderIds : List (String × Option String) :=
  [("Tvdb", some "55"), ("AniDB", some "1")]

/-- Witness for C4: with an AniDB-configured show section, only the anidb
descriptor survives the strict restriction. -/
theorem c4_strict_mapping_descriptors_witness :
    mappingDescriptors true
        (initializeStrictShowProviders true [demoSection] demoFetch)
        "sec-1" MediaKind.show demoProviderIds = [("anidb", "1", none)] := by
  have h := (c4_strict_mapping_descriptors [demoSection] demoFetch "sec-1"
      demoProviderIds).2.1 "anidb" rfl
  rw [h]
  decide

/-- A fetcher selected from a type option is never the empty string. -/
theorem fetcherFromOption_ne_empty (o : TypeOptions) (f : String)
    (h : fetcherFromOption o = some f) : f ≠ "" := by
  unfold fetcherFromOption at h
  split at h
  · have hp := List.find?_some h
    simpa using hp
  · have hp := List.find?_some h
    simp only [Bool.and_eq_true, decide_eq_true_eq] at hp
    exact hp.1

/-- The loop body of `_load_show_metadata_fetchers` selects exactly what the
specification's per-option rule describes. -/
theorem fetcherFromOption_eq_spec (o : TypeOptions) :
    fetcherFromOption o = c1SpecSelectOption o := by
  unfold fetcherFromOption c1SpecSelectOption enabledSet
  cases ho : o.metadataFetcherOrder with
  | none => simp
  | some ordered =>
    by_cases hoe : ordered = []
    · subst hoe
      simp
    · rw [if_neg (by simp [hoe]), if_pos (by simp [hoe])]
      cases he : o.metadataFetchers with
      | none => simp [Bool.and_true]
      | some enabled =>
        by_cases hee : enabled = []
        · subst hee
          simp [Bool.and_true]
        · rw [if_pos (by simp [hee])]
          simp [hee]

/-- A fetcher produced by the option scan is never the empty string. -/
theorem seriesOptionScan_ne_empty (options : List TypeOptions) (f : String)
    (h : seriesOptionScan options = some f) : f ≠ "" := by
  induction options with
  | nil => exact absurd h (by simp [seriesOptionScan])
  | cons o rest ih =>
    unfold seriesOptionScan at h
    split at h
    · exact ih h
    · split at h
      · split at h
        · exact ih h
        · rename_i hfe
          have : _ = f := Option.some.injEq .. |>.mp h
          exact this ▸ hfe
      · exact ih h

/-- The scan over a folder's type options equals the specification's
first-SERIES-option selection. -/
theorem seriesOptionScan_eq_spec (options : List TypeOptions) :
    seriesOptionScan options =
      (options.filter (fun o => o.type = some BaseItemKind.series)).findSome?
        c1SpecSelectOption := by
  induction options with
  | nil => rfl
  | cons o rest ih =>
    unfold seriesOptionScan
    by_cases hty : o.type = some BaseItemKind.series
    · rw [if_neg (by simp [hty]), List.filter_cons_of_pos (by simp [hty]),
        List.findSome?_cons]
      cases hf : fetcherFromOption o with
      | some fetcher =>
        simp only [hf]
        rw [if_neg (fetcherFromOption_ne_empty o fetcher hf),
          ← fetcherFromOption_eq_spec, hf]
      | none =>
        simp only [hf]
        rw [← fetcherFromOption_eq_spec, hf]
        exact ih
    · rw [if_pos (by simp [hty]), List.filter_cons_of_neg (by simp [hty])]
      exact ih

/-- The entry recorded for one virtual folder equals the specification's
entry. -/
theorem folderEntry_eq_spec (folder : VirtualFolderInfo) :
    folderEntry folder = c1SpecEntry folder := by
  unfold folderEntry c1SpecEntry c1SpecSelect
  by_cases hct : folder.collectionType = some CollectionTypeOptions.tvshows
  · rw [if_neg (by simp [hct]), if_pos hct]
    cases hto : folder.libraryOptions.bind LibraryOptions.typeOptions with
    | none => simp [folderEntryTypeOptions]
    | some options =>
      simp only [folderEntryTypeOptions, Option.getD_some]
      by_cases hoe : options = []
      · subst hoe
        simp [folderEntryScan]
      · rw [if_neg (by simpa using hoe)]
        cases hscan : seriesOptionScan options with
        | some fetcher =>
          simp only [folderEntryScan]
          rw [if_neg (seriesOptionScan_ne_empty options fetcher hscan)]
          rw [seriesOptionScan_eq_spec] at hscan
          rw [hscan]
        | none =>
          simp only [folderEntryScan]
          rw [seriesOptionScan_eq_spec] at hscan
          rw [hscan]
  · rw [if_pos (by simp [hct]), if_neg hct]

/-- The folder fold equals the specification's fold from any accumulator. -/
theorem loadShowMetadataFetchersFrom_eq_spec (folders : List VirtualFolderInfo) :
    ∀ acc, loadShowMetadataFetchersFrom acc folders = c1SpecMapFrom acc folders := by
  induction folders with
  | nil => intro acc; rfl
  | cons folder rest ih =>
    intro acc
    unfold loadShowMetadataFetchersFrom c1SpecMapFrom
    rw [folderEntry_eq_spec]
    exact ih _

/-- C1: the section-to-fetcher map built by `_load_show_metadata_fetchers`
records, for every TV-shows virtual folder, exactly the fetcher described by
the specification's ordered/enabled selection rule, and records nothing for
folders where no fetcher is selected. -/
theorem c1_load_show_metadata_fetchers (folders : List VirtualFolderInfo) :
    loadShowMetadataFetchers folders = c1SpecMap folders :=
  loadShowMetadataFetchersFrom_eq_spec folders _

end AniBridgeJellyfin
